import Mathlib

/-!
Shallow embedding of the inventory module (src/inventory.rs) of steamworks-rs.

Native Steam API calls are foreign functions; each operation's interaction with
them is modelled by an environment record giving, call by call, the boolean the
native call returns and the data it writes through its out-pointers.  A Rust
function call is modelled as an `Outcome`: a normal return, a typed error
return, or a panic (a failed `unwrap` or a firing `debug_assert!`).
-/

/-- Error type from crate::error (outside this module): the one variant the
inventory module constructs, plus a catch-all for the numeric conversion used
by the callbacks' `from_raw`. -/
inductive SteamError where
  | itemDefinitionsNotLoaded
  | other (code : Nat)
  deriving DecidableEq

/-- Outcome of running a Rust function body: `ok` for a normal return of the
`Ok` variant of `SResult`, `err` for an `Err` return, `panicked` for a panic
(`unwrap` on a failed conversion, or a failing `debug_assert!`). -/
inductive Outcome (α : Type) where
  | ok (a : α)
  | err (e : SteamError)
  | panicked
  deriving DecidableEq

def Outcome.isOk {α : Type} : Outcome α → Bool
  | .ok _ => true
  | _ => false

/-- `SteamInventoryResult_t` newtype wrapper: `InventoryResultHandle(i32)`. -/
structure InventoryResultHandle where
  raw : Int
  deriving DecidableEq

/-- `SteamItemDef_t` newtype wrapper: `InventoryItemDefinition(i32)`. -/
structure InventoryItemDefinition where
  raw : Int
  deriving DecidableEq

/-- The Rust `Vec` semantics this module relies on: `with_capacity` allocates
but leaves `len = 0`; a native call writing through `as_mut_ptr` fills the
allocation without touching `len`; `into_iter` yields exactly the initialized
prefix, i.e. the first `len` elements of the allocation. -/
structure RustVec (α : Type) where
  len : Nat
  cap : Nat
  buf : List α

/-- `Vec::with_capacity(n)`: length 0, capacity `n`, nothing initialized. -/
def RustVec.withCapacity {α : Type} (n : Nat) : RustVec α := ⟨0, n, []⟩

/-- A native call writing `written` through `as_mut_ptr`: the allocation now
holds those elements, but the vector's `len` is unchanged (the code never
calls `set_len`). -/
def RustVec.ffiWrite {α : Type} (v : RustVec α) (written : List α) : RustVec α :=
  ⟨v.len, v.cap, written⟩

/-- `into_iter().collect()`: only the `len`-element initialized prefix. -/
def RustVec.intoIter {α : Type} (v : RustVec α) : List α :=
  v.buf.take v.len

/-- `CString::new(bytes)`: fails (`NulError`) iff the input contains a NUL
byte anywhere; on success the terminating NUL is appended. -/
def cstringNew (bytes : List UInt8) : Option (List UInt8) :=
  if bytes.contains 0 = true then none else some (bytes ++ [0])

/-- `CStr::from_bytes_with_nul(bytes)`: succeeds iff the slice is nonempty,
its last byte is NUL and no earlier byte is NUL; yields the bytes without the
terminator. -/
def cstrFromBytesWithNul (bytes : List UInt8) : Option (List UInt8) :=
  match bytes.getLast? with
  | none => none
  | some last =>
    if last = 0 ∧ bytes.dropLast.contains 0 = false then some bytes.dropLast
    else none

/-- UTF-8 validation and decoding, as performed by `CStr::to_str` (str::from_utf8):
rejects stray continuation bytes, overlong forms, surrogates and values above
U+10FFFF. -/
def utf8DecodeList : List UInt8 → Option (List Char)
  | [] => some []
  | b0 :: rest =>
    if b0.toNat < 0x80 then
      (utf8DecodeList rest).map (fun cs => Char.ofNat b0.toNat :: cs)
    else if 0xC2 ≤ b0.toNat ∧ b0.toNat ≤ 0xDF then
      match rest with
      | b1 :: rest1 =>
        if 0x80 ≤ b1.toNat ∧ b1.toNat < 0xC0 then
          (utf8DecodeList rest1).map (fun cs =>
            Char.ofNat ((b0.toNat - 0xC0) * 64 + (b1.toNat - 0x80)) :: cs)
        else none
      | [] => none
    else if 0xE0 ≤ b0.toNat ∧ b0.toNat ≤ 0xEF then
      match rest with
      | b1 :: b2 :: rest2 =>
        if (0x80 ≤ b1.toNat ∧ b1.toNat < 0xC0) ∧ (0x80 ≤ b2.toNat ∧ b2.toNat < 0xC0)
            ∧ ¬(b0.toNat = 0xE0 ∧ b1.toNat < 0xA0)
            ∧ ¬(b0.toNat = 0xED ∧ 0xA0 ≤ b1.toNat) then
          (utf8DecodeList rest2).map (fun cs =>
            Char.ofNat ((b0.toNat - 0xE0) * 4096 + (b1.toNat - 0x80) * 64
              + (b2.toNat - 0x80)) :: cs)
        else none
      | _ => none
    else if 0xF0 ≤ b0.toNat ∧ b0.toNat ≤ 0xF4 then
      match rest with
      | b1 :: b2 :: b3 :: rest3 =>
        if (0x80 ≤ b1.toNat ∧ b1.toNat < 0xC0) ∧ (0x80 ≤ b2.toNat ∧ b2.toNat < 0xC0)
            ∧ (0x80 ≤ b3.toNat ∧ b3.toNat < 0xC0)
            ∧ ¬(b0.toNat = 0xF0 ∧ b1.toNat < 0x90)
            ∧ ¬(b0.toNat = 0xF4 ∧ 0x90 ≤ b1.toNat) then
          (utf8DecodeList rest3).map (fun cs =>
            Char.ofNat ((b0.toNat - 0xF0) * 262144 + (b1.toNat - 0x80) * 4096
              + (b2.toNat - 0x80) * 64 + (b3.toNat - 0x80)) :: cs)
        else none
      | _ => none
    else none

/-- Native behaviour seen by `grant_promo_items` / `get_all_items`: the bool
the call returns (`accepted`) and the value it leaves in the out-parameter
`id` (declared as `let mut id = 0`). -/
structure RequestEnv where
  accepted : Bool
  idWritten : Int

/-- `grant_promo_items`: calls the native function with `&mut id` and returns
`Ok((result, InventoryResultHandle(id)))` unconditionally. -/
def grant_promo_items (env : RequestEnv) : Outcome (Bool × InventoryResultHandle) :=
  Outcome.ok (env.accepted, ⟨env.idWritten⟩)

/-- `get_all_items`: same shape as `grant_promo_items`. -/
def get_all_items (env : RequestEnv) : Outcome (Bool × InventoryResultHandle) :=
  Outcome.ok (env.accepted, ⟨env.idWritten⟩)

/-- `destroy_result(result)`: passes `result.0` to the native `DestroyResult`
call with no guard; the model returns the raw value handed to the native
side, making the call observable. -/
def destroy_result (result : InventoryResultHandle) : Int :=
  result.raw

/-- `check_steam_id(result, steam_id)`: passes `result.0` and the steam id to
the native `CheckResultSteamID` with no guard and returns its answer; the
native side is the `native` oracle. -/
def check_steam_id (native : Int → Int → Bool) (result : InventoryResultHandle)
    (steam_id : Int) : Bool :=
  native result.raw steam_id

/-- Native behaviour seen by `get_item_definitions`: first call with a null
destination returns `loaded1` and writes `count1` to `item_definition_count`;
the second call (with the buffer) returns `loaded2` and writes `filledIds`
through the buffer pointer. The count the second call writes back is never
read afterwards, so it is not modelled. -/
structure DefinitionsEnv where
  loaded1 : Bool
  count1 : Nat
  loaded2 : Bool
  filledIds : List Int

/-- `get_item_definitions`: returns `Err(ItemDefinitionsNotLoaded)` if the
first native call reports not loaded; otherwise allocates
`Vec::with_capacity(count)`, re-queries into it, `debug_assert!`s the second
call's result (a panic only when `debugAssertions` is on), and returns the
vector's initialized prefix wrapped in `InventoryItemDefinition`. -/
def get_item_definitions (debugAssertions : Bool) (env : DefinitionsEnv) :
    Outcome (List InventoryItemDefinition) :=
  if env.loaded1 = false then Outcome.err SteamError.itemDefinitionsNotLoaded
  else
    let definitions : RustVec Int := RustVec.withCapacity env.count1
    let definitions := RustVec.ffiWrite definitions env.filledIds
    if debugAssertions = true ∧ env.loaded2 = false then Outcome.panicked
    else Outcome.ok ((RustVec.intoIter definitions).map InventoryItemDefinition.mk)

/-- Native behaviour seen by `get_item_definition_property`: the first
(size-query) call returns `sizeQueryOk` and writes `reportedSize` to
`buf_size`; the second (fill) call returns `fillOk` and writes `filledBytes`
through the buffer pointer.  Both returned booleans are discarded by the code
(`unsafe` block used as a statement).  The `buf_size` the second call writes
back is never read afterwards, so it is not modelled. -/
structure PropertyEnv where
  sizeQueryOk : Bool
  reportedSize : Nat
  fillOk : Bool
  filledBytes : List UInt8

/-- `get_item_definition_property`: `CString::new(name).unwrap()`, size query
(result ignored), `Vec::with_capacity(buf_size)`, fill call (result ignored),
then `CStr::from_bytes_with_nul(collected).unwrap().to_str().unwrap()`.  The
buffer elements are `c_char` cast byte-for-byte to `u8`, modelled directly as
bytes.  `item_definition` is forwarded to the native calls only. -/
def get_item_definition_property (item_definition : InventoryItemDefinition)
    (name : List UInt8) (env : PropertyEnv) : Outcome String :=
  match cstringNew name with
  | none => Outcome.panicked
  | some _cname =>
    let value : RustVec UInt8 := RustVec.withCapacity env.reportedSize
    let value := RustVec.ffiWrite value env.filledBytes
    match cstrFromBytesWithNul (RustVec.intoIter value) with
    | none => Outcome.panicked
    | some inner =>
      match utf8DecodeList inner with
      | none => Outcome.panicked
      | some cs => Outcome.ok (String.mk cs)

/-- Steam SDK callback index base for the inventory interface (modelled from
the steamworks-sys bindings: k_iSteamInventoryCallbacks = 4700). -/
def k_iSteamInventoryCallbacks : Int := 4700

/-- `SteamInventoryResultReady_t::k_iCallback` = base + 0 = 4700. -/
def SteamInventoryResultReady_t_k_iCallback : Int := k_iSteamInventoryCallbacks + 0

/-- Steam SDK callback index base for the game-search interface (modelled from
the steamworks-sys bindings: k_iSteamGameSearchCallbacks = 5200). -/
def k_iSteamGameSearchCallbacks : Int := 5200

/-- `SubmitPlayerResultResultCallback_t::k_iCallback` = base + 14 = 5214, a
game-search callback unrelated to the inventory interface. -/
def SubmitPlayerResultResultCallback_t_k_iCallback : Int :=
  k_iSteamGameSearchCallbacks + 14

/-- Byte size of `SteamInventoryResultReady_t` (modelled from the SDK layout:
a 32-bit `m_handle` followed by a 32-bit `m_result`). -/
def sizeof_SteamInventoryResultReady_t : Int := 8

/-- The typed event decoded from a `SteamInventoryResultReady_t` record. -/
structure InventoryResultReady where
  handle : InventoryResultHandle
  result : SteamError

/-- The `ID` constant of `InventoryResultReady`'s `Callback` impl, exactly as
written in the source: `sys::SubmitPlayerResultResultCallback_t_k_iCallback`. -/
def InventoryResultReady.ID : Int := SubmitPlayerResultResultCallback_t_k_iCallback

/-- The `SIZE` constant of `InventoryResultReady`'s `Callback` impl:
`size_of::<sys::SteamInventoryResultReady_t>()`. -/
def InventoryResultReady.SIZE : Int := sizeof_SteamInventoryResultReady_t

/-- Modelled from the spec: the completion channel (whose dispatch code lives
outside this module) matches a raw completion record to a registered callback
by comparing the record's numeric tag to the callback's `ID` and its byte
length to the callback's `SIZE`. -/
def callbackMatches (id size tag len : Int) : Bool :=
  tag == id && len == size

/-- The concrete environment of the spec scenario: the size query reports the
size of the NUL-terminated value and the fill call writes the bytes of
the C string holding the word Sword. -/
def swordEnv : PropertyEnv := ⟨true, 6, true, [83, 119, 111, 114, 100, 0]⟩

/-- C1: in the spec scenario (size query reports 6 for the NUL-terminated
value and the fill call writes the bytes of the C string holding Sword),
`get_item_definition_property` panics instead of returning the decoded
string: the vector's length is never set after the fill, so `into_iter`
yields no bytes and `CStr::from_bytes_with_nul(&[]).unwrap()` panics.  The
filled bytes themselves would decode to the five-letter string, as the last
two conjuncts show. -/
theorem sword_scenario_panics :
    get_item_definition_property ⟨42⟩ [110, 97, 109, 101] swordEnv = Outcome.panicked ∧
    cstrFromBytesWithNul swordEnv.filledBytes = some [83, 119, 111, 114, 100] ∧
    (cstrFromBytesWithNul swordEnv.filledBytes).bind
      (fun inner => (utf8DecodeList inner).map String.mk) = some "Sword" := by
  refine ⟨by decide, by decide, by decide⟩

/-- C2 counterexample: with a name free of NUL and a fill call writing the
single invalid byte 255 (not NUL-terminated, not valid UTF-8), the operation
panics; it does not return a `DecodeFailed` error (no such return path
exists in the code). -/
theorem invalid_bytes_not_decode_failed_error :
    get_item_definition_property ⟨3⟩ [110] ⟨true, 1, true, [255]⟩ = Outcome.panicked := by
  decide

/-- C2 (amended): whenever `CString::new` succeeds (the name has no NUL), the
operation panics rather than returning any error: the byte slice handed to
the decoder is always empty because the vector length is never set, and the
failed `CStr` conversion is `unwrap`ped. -/
theorem decode_failure_panics (d : InventoryItemDefinition) (name : List UInt8)
    (env : PropertyEnv) (h : (0 : UInt8) ∉ name) :
    get_item_definition_property d name env = Outcome.panicked := by
  simp [get_item_definition_property, cstringNew, h, cstrFromBytesWithNul,
    RustVec.withCapacity, RustVec.ffiWrite, RustVec.intoIter]

theorem decode_failure_panics_witness :
    (0 : UInt8) ∉ ([110, 97] : List UInt8) ∧
    get_item_definition_property ⟨7⟩ [110, 97] ⟨true, 3, true, [200, 0]⟩ = Outcome.panicked :=
  ⟨by decide, decode_failure_panics ⟨7⟩ [110, 97] ⟨true, 3, true, [200, 0]⟩ (by decide)⟩

/-- C3 counterexample: a reported size of 0 (with nothing written by the fill
call) makes the operation panic, not return an empty value: the empty slice
has no NUL terminator, so `CStr::from_bytes_with_nul` fails and is
`unwrap`ped. -/
theorem zero_size_not_empty_value :
    get_item_definition_property ⟨4⟩ [112] ⟨true, 0, true, []⟩ = Outcome.panicked := by
  decide

/-- C3 (amended): for every call whose name has no NUL and whose size query
reports 0, the operation panics at the `CStr` conversion instead of
returning an empty string. -/
theorem zero_size_panics (d : InventoryItemDefinition) (name : List UInt8)
    (env : PropertyEnv) (h : (0 : UInt8) ∉ name) (h0 : env.reportedSize = 0) :
    get_item_definition_property d name env = Outcome.panicked := by
  simp [get_item_definition_property, cstringNew, h, cstrFromBytesWithNul,
    RustVec.withCapacity, RustVec.ffiWrite, RustVec.intoIter]

theorem zero_size_panics_witness :
    (0 : UInt8) ∉ ([112] : List UInt8) ∧
    (⟨true, 0, true, []⟩ : PropertyEnv).reportedSize = 0 ∧
    get_item_definition_property ⟨8⟩ [112] ⟨true, 0, true, []⟩ = Outcome.panicked :=
  ⟨by decide, rfl, zero_size_panics ⟨8⟩ [112] ⟨true, 0, true, []⟩ (by decide) rfl⟩

/-- C4: the `ID` constant of the `InventoryResultReady` callback registration
is `SubmitPlayerResultResultCallback_t_k_iCallback` (5214, a game-search
callback), not `SteamInventoryResultReady_t_k_iCallback` (4700), even though
`SIZE` and `from_raw` use `SteamInventoryResultReady_t`; consequently a
completion record carrying the ResultReady tag and the ResultReady length
does not match the registration. -/
theorem result_ready_id_mismatch :
    InventoryResultReady.ID = SubmitPlayerResultResultCallback_t_k_iCallback ∧
    InventoryResultReady.ID ≠ SteamInventoryResultReady_t_k_iCallback ∧
    InventoryResultReady.SIZE = sizeof_SteamInventoryResultReady_t ∧
    callbackMatches InventoryResultReady.ID InventoryResultReady.SIZE
      SteamInventoryResultReady_t_k_iCallback sizeof_SteamInventoryResultReady_t = false := by
  refine ⟨rfl, by decide, rfl, by decide⟩

/-- C5 counterexample: with debug assertions on, a first enumerator call that
succeeds (count 3) followed by a second call that reports failure makes
`get_item_definitions` panic via `debug_assert!`, so a successful first call
does not always yield a non-error return. -/
theorem get_item_definitions_debug_assert_counterexample :
    get_item_definitions true ⟨true, 3, false, [1, 2, 3]⟩ = Outcome.panicked := by
  decide

/-- C5 (amended): `get_item_definitions` returns `ItemDefinitionsNotLoaded`
iff the first enumerator call reports not loaded; when the first call
succeeds it returns a non-error (in fact always empty) sequence, except that
a second call reporting failure under debug assertions panics instead. -/
theorem get_item_definitions_error_iff_not_loaded (dbg : Bool) (env : DefinitionsEnv) :
    (get_item_definitions dbg env = Outcome.err SteamError.itemDefinitionsNotLoaded ↔
      env.loaded1 = false) ∧
    (env.loaded1 = true → (dbg = true → env.loaded2 = true) →
      ∃ defs, get_item_definitions dbg env = Outcome.ok defs) := by
  obtain ⟨l1, c1, l2, ids⟩ := env
  cases l1 <;> cases l2 <;> cases dbg <;>
    simp [get_item_definitions, RustVec.withCapacity, RustVec.ffiWrite, RustVec.intoIter]

theorem get_item_definitions_error_iff_not_loaded_witness :
    (get_item_definitions true ⟨true, 2, true, [5, 6]⟩ =
        Outcome.err SteamError.itemDefinitionsNotLoaded ↔ (true : Bool) = false) ∧
    ∃ defs, get_item_definitions true ⟨true, 2, true, [5, 6]⟩ = Outcome.ok defs :=
  ⟨(get_item_definitions_error_iff_not_loaded true ⟨true, 2, true, [5, 6]⟩).1,
    (get_item_definitions_error_iff_not_loaded true ⟨true, 2, true, [5, 6]⟩).2
      rfl (fun _ => rfl)⟩

/-- C6 counterexample: a failing size query (first boolean false) does not
produce a `SizeQueryFailed` error: the code discards the boolean, proceeds
to allocate, fill and decode, and ends in the decode-step panic. -/
theorem size_query_failure_not_size_query_failed :
    get_item_definition_property ⟨5⟩ [113] ⟨false, 4, true, [65, 0]⟩ = Outcome.panicked := by
  decide

/-- C6 (amended): the result of the size-query call is ignored entirely: the
operation behaves identically whether that call reports failure or success,
and no `SizeQueryFailed` error path exists. -/
theorem size_query_result_ignored (d : InventoryItemDefinition) (name : List UInt8)
    (b : Bool) (n : Nat) (f : Bool) (bs : List UInt8) :
    get_item_definition_property d name ⟨b, n, f, bs⟩ =
      get_item_definition_property d name ⟨true, n, f, bs⟩ :=
  rfl

/-- C7 counterexample: in a release build (debug assertions off), a
successful size query (count 2) followed by a failing fill call is silently
ignored: `get_item_definitions` returns `Ok` instead of a `FillFailed`
error. -/
theorem fill_failure_silently_ignored_in_release :
    get_item_definitions false ⟨true, 2, false, [7, 8]⟩ = Outcome.ok [] := by
  decide

/-- C7 (amended): in `get_item_definitions`, a failing second call after a
successful size query triggers `debug_assert!` (a panic) only when debug
assertions are on; with them off the failure is silently ignored and `Ok` is
returned — no `FillFailed` error exists.  In `get_item_definition_property`
the fill call's result is discarded in all builds: the outcome does not
depend on it. -/
theorem fill_failure_debug_assert_only (env : DefinitionsEnv)
    (h1 : env.loaded1 = true) (h2 : env.loaded2 = false)
    (d : InventoryItemDefinition) (name : List UInt8)
    (s : Bool) (n : Nat) (f : Bool) (bs : List UInt8) (b : Bool) :
    get_item_definitions true env = Outcome.panicked ∧
    get_item_definitions false env = Outcome.ok [] ∧
    get_item_definition_property d name ⟨s, n, b, bs⟩ =
      get_item_definition_property d name ⟨s, n, f, bs⟩ := by
  obtain ⟨l1, c1, l2, ids⟩ := env
  subst h1
  subst h2
  refine ⟨?_, ?_, rfl⟩ <;>
    simp [get_item_definitions, RustVec.withCapacity, RustVec.ffiWrite, RustVec.intoIter]

theorem fill_failure_debug_assert_only_witness :
    get_item_definitions true ⟨true, 2, false, [7, 8]⟩ = Outcome.panicked ∧
    get_item_definitions false ⟨true, 2, false, [7, 8]⟩ = Outcome.ok [] ∧
    get_item_definition_property ⟨42⟩ [110] ⟨true, 3, false, [1]⟩ =
      get_item_definition_property ⟨42⟩ [110] ⟨true, 3, true, [1]⟩ :=
  fill_failure_debug_assert_only ⟨true, 2, false, [7, 8]⟩ rfl rfl ⟨42⟩ [110]
    true 3 true [1] false

/-- C8 counterexample: when the native call rejects the request
(`accepted = false`, out-parameter left at 0), `grant_promo_items` still
yields the handle, and both `destroy_result` and `check_steam_id` accept it
unguarded, forwarding its raw value to the native side. -/
theorem rejected_handle_usable_counterexample :
    grant_promo_items ⟨false, 0⟩ = Outcome.ok (false, ⟨0⟩) ∧
    destroy_result ⟨0⟩ = 0 ∧
    check_steam_id (fun _ _ => true) ⟨0⟩ 100 = true :=
  ⟨rfl, rfl, rfl⟩

/-- C8 (amended): on rejection the operations still return the handle value
the native call wrote; the wrapper imposes no restriction on passing any
handle to `check_steam_id` or `destroy_result` (both are unguarded
pass-throughs), so not using a rejected handle is caller responsibility. -/
theorem rejected_request_handle_returned_and_usable (env : RequestEnv)
    (h : InventoryResultHandle) (native : Int → Int → Bool) (sid : Int) :
    grant_promo_items env = Outcome.ok (env.accepted, ⟨env.idWritten⟩) ∧
    get_all_items env = Outcome.ok (env.accepted, ⟨env.idWritten⟩) ∧
    destroy_result h = h.raw ∧
    check_steam_id native h sid = native h.raw sid :=
  ⟨rfl, rfl, rfl, rfl⟩

theorem rejected_request_handle_returned_and_usable_witness :
    grant_promo_items ⟨false, 9⟩ = Outcome.ok (false, ⟨9⟩) ∧
    get_all_items ⟨false, 9⟩ = Outcome.ok (false, ⟨9⟩) ∧
    destroy_result ⟨9⟩ = 9 ∧
    check_steam_id (fun a _ => a == 9) ⟨9⟩ 77 = ((9 : Int) == 9) :=
  rejected_request_handle_returned_and_usable ⟨false, 9⟩ ⟨9⟩ (fun a _ => a == 9) 77

/-- C9: `grant_promo_items` and `get_all_items` produce the `Ok` variant for
every native response; the `Err` variant (and a panic) is impossible, so
synchronous rejection is observable only through the boolean in the returned
pair. -/
theorem grant_and_get_all_items_always_ok (env env2 : RequestEnv) :
    Outcome.isOk (grant_promo_items env) = true ∧
    Outcome.isOk (get_all_items env2) = true :=
  ⟨rfl, rfl⟩

theorem grant_and_get_all_items_always_ok_witness :
    Outcome.isOk (grant_promo_items ⟨true, 5⟩) = true ∧
    Outcome.isOk (get_all_items ⟨false, 0⟩) = true :=
  grant_and_get_all_items_always_ok ⟨true, 5⟩ ⟨false, 0⟩

/-- C10: a property name containing a NUL byte makes
`get_item_definition_property` panic at `CString::new(name).unwrap()`, for
every environment, rather than return a typed error. -/
theorem interior_nul_panics (d : InventoryItemDefinition) (name : List UInt8)
    (env : PropertyEnv) (h : (0 : UInt8) ∈ name) :
    get_item_definition_property d name env = Outcome.panicked := by
  simp [get_item_definition_property, cstringNew, h]

theorem interior_nul_panics_witness :
    (0 : UInt8) ∈ ([110, 0, 109] : List UInt8) ∧
    get_item_definition_property ⟨9⟩ [110, 0, 109] ⟨true, 4, true, [65, 0]⟩ =
      Outcome.panicked :=
  ⟨by decide, interior_nul_panics ⟨9⟩ [110, 0, 109] ⟨true, 4, true, [65, 0]⟩ (by decide)⟩
